import Mathlib

/-
Verification development for the WeatherData-Polars ingestion pipeline
(src/wd_data_load.py).

The script ingests sensor weather CSV files into a Postgres table:
it discovers candidate files by filename mask, resolves each file to a
sensor by substring matching against the sensors table, parses the CSV
(timestamp canonicalised by stripping the first comma and parsing the
format "%b %d %Y %H:%M"), deduplicates rows against the timestamps
already in storage, appends the new rows, and finally archives the
processed files with a second-precision timestamp suffix.

This file gives a shallow embedding of that code.  The Postgres store is
modelled as an in-memory list of rows (the code treats it as an opaque
read/append service); Float64 columns are modelled as rationals (the
pipeline never does arithmetic on them, it only carries the values);
uncaught Python exceptions are modelled as Except.error values that
propagate to the top of the run.
-/

namespace WD

/-! ## Basic string utilities (modelling the Python/polars string operations) -/

/-- Characters of the input before the first occurrence of the pattern
(mirrors the Python expression s.split(mask)[0] when mask occurs in s). -/
def takeUntilMatch (pat : List Char) : List Char → List Char
  | [] => []
  | c :: cs => if pat.isPrefixOf (c :: cs) then [] else c :: takeUntilMatch pat cs

/-- Does pat occur as a contiguous substring of the list (mirrors the
polars expression col.str.contains(pat) on the literal patterns used by
the script)? -/
def hasSubstr (pat : List Char) : List Char → Bool
  | [] => pat.isEmpty
  | c :: cs => pat.isPrefixOf (c :: cs) || hasSubstr pat cs

/-- The part of a path after the last slash (mirrors os.path.basename). -/
def basename (s : String) : String :=
  ⟨(s.data.reverse.takeWhile (fun c => c ≠ '/')).reverse⟩

/-- Split a character list on a separator character; mirrors
String.split semantics: splitOnChar c [] = [[]] and separators produce
empty components. -/
def splitOnChar (sep : Char) : List Char → List (List Char)
  | [] => [[]]
  | c :: cs =>
    let r := splitOnChar sep cs
    if c = sep then [] :: r
    else
      match r with
      | [] => [[c]]
      | t :: ts => (c :: t) :: ts

/-- Remove the first comma of the string, if any (mirrors the polars
expression col.str.replace(",", ""), which replaces only the first
match). -/
def stripFirstComma : List Char → List Char
  | [] => []
  | c :: cs => if c = ',' then cs else c :: stripFirstComma cs

/-- Numeric decoding of a non-empty all-digit character list (the digit
string semantics of CSV numeric cells). -/
def parseNatCol (l : List Char) : Option Nat :=
  if l ≠ [] ∧ l.all Char.isDigit then
    some (l.foldl (fun a c => a * 10 + (c.toNat - 48)) 0)
  else none

/-! ## Data model -/

/-- A sensor row of the sensors table: s_id and s_name columns. -/
structure Sensor where
  s_id : Int
  s_name : String
deriving DecidableEq, Repr

/-- A parsed timestamp: the format "%b %d %Y %H:%M" has minute
precision and no timezone, so a timestamp is the five numeric fields. -/
structure Timestamp where
  year : Nat
  month : Nat
  day : Nat
  hour : Nat
  minute : Nat
deriving DecidableEq, Repr

/-- One raw CSV line, decoded into the six positional columns declared
in csv_to_lazy_df (all still textual, as read from the file). -/
structure RawRow where
  timestamp : String
  temp_C : String
  rel_humidity_PC : String
  dpt_C : String
  vpd_kPa : String
  abs_humidity_G_M3 : String
deriving DecidableEq, Repr

/-- A source CSV file: its (path) name and its lines.  scan_csv is
called with skip_rows = 1, so the first line is always skipped. -/
structure CsvFile where
  name : String
  lines : List RawRow
deriving DecidableEq, Repr

/-- A fully parsed observation row as committed to storage: timestamp
canonicalised, numeric columns typed, sensor id attached
(with_columns(sensor = pl.lit(sensor))). -/
structure ParsedRow where
  timestamp : Timestamp
  temp_C : Rat
  rel_humidity_PC : Int
  dpt_C : Rat
  vpd_kPa : Rat
  abs_humidity_G_M3 : Rat
  sensor : Int
deriving DecidableEq, Repr

/-! ## CSV parsing (csv_to_lazy_df plus the timestamp transformations) -/

/-- Abbreviated month names accepted by the "%b" specifier. -/
def monthNum (s : List Char) : Option Nat :=
  if s = "Jan".data then some 1
  else if s = "Feb".data then some 2
  else if s = "Mar".data then some 3
  else if s = "Apr".data then some 4
  else if s = "May".data then some 5
  else if s = "Jun".data then some 6
  else if s = "Jul".data then some 7
  else if s = "Aug".data then some 8
  else if s = "Sep".data then some 9
  else if s = "Oct".data then some 10
  else if s = "Nov".data then some 11
  else if s = "Dec".data then some 12
  else none

/-- Timestamp canonicalisation of main_processing: first the first comma
is removed (str.replace(",", "")), then the string is parsed with
str.strptime(pl.Datetime, "%b %d %Y %H:%M").  A string that does not
match the format is a parse failure (polars raises at collect). -/
def parseTimestamp (raw : String) : Option Timestamp :=
  match splitOnChar ' ' (stripFirstComma raw.data) with
  | [b, d, y, hm] =>
    match monthNum b, parseNatCol d, parseNatCol y, splitOnChar ':' hm with
    | some mo, some da, some yr, [hh, mm] =>
      match parseNatCol hh, parseNatCol mm with
      | some h, some mi =>
        if 1 ≤ da ∧ da ≤ 31 ∧ h ≤ 23 ∧ mi ≤ 59 then
          some ⟨yr, mo, da, h, mi⟩
        else none
      | _, _ => none
    | _, _, _, _ => none
  | _ => none

/-- Decoding of an Int32 CSV cell (the rel_humidity_PC dtype). -/
def parseIntCol (s : String) : Option Int :=
  match s.data with
  | '-' :: rest => (parseNatCol rest).map (fun n => -(n : Int))
  | l => (parseNatCol l).map (fun n => (n : Int))

/-- Decoding of a Float64 CSV cell, modelled as an exact rational
(optional sign, integer part, optional fractional part). -/
def parseRatCol (s : String) : Option Rat :=
  let parsePos : List Char → Option Rat := fun l =>
    match splitOnChar '.' l with
    | [ip] => (parseNatCol ip).map (fun n => (n : Rat))
    | [ip, fp] =>
      match parseNatCol ip, parseNatCol fp with
      | some n, some m => some ((n : Rat) + (m : Rat) / ((10 : Rat) ^ fp.length))
      | _, _ => none
    | _ => none
  match s.data with
  | '-' :: rest => (parsePos rest).map Neg.neg
  | l => parsePos l

/-- Parse one data row under the fixed schema of csv_to_lazy_df, with
the sensor id attached; any malformed cell is a failure. -/
def parseRow (sensor : Int) (r : RawRow) : Option ParsedRow :=
  match parseTimestamp r.timestamp, parseRatCol r.temp_C, parseIntCol r.rel_humidity_PC,
        parseRatCol r.dpt_C, parseRatCol r.vpd_kPa, parseRatCol r.abs_humidity_G_M3 with
  | some ts, some t, some rh, some d, some v, some a => some ⟨ts, t, rh, d, v, a, sensor⟩
  | _, _, _, _, _, _ => none

/-- Parse a whole file: the first line is skipped unconditionally
(skip_rows = 1, has_header = False) and every remaining line must parse;
a failure on any row fails the whole file (polars raises at collect). -/
def parseFile (sensor : Int) (f : CsvFile) : Option (List ParsedRow) :=
  (f.lines.drop 1).mapM (parseRow sensor)

/-! ## Deduplication (the row loop of main_processing, lines 81 to 87)

The loop walks the parsed rows in order; a row is appended to the fresh
frame df (and the counter incremented) exactly when its parsed timestamp
is not a member of the timestamp column fetched from storage.  The
fetched column is only read, never written, so the embedding takes it as
a plain argument. -/

/-- The dedup loop: returns the rows to commit, in file order, together
with the counter of appended rows. -/
def dedupLoop (existing : List Timestamp) : List ParsedRow → List ParsedRow × Nat
  | [] => ([], 0)
  | r :: rs =>
    let rest := dedupLoop existing rs
    if r.timestamp ∈ existing then rest else (r :: rest.1, rest.2 + 1)

/-! ## Orchestration (main_processing and main)

Python exceptions that the script does not catch are modelled with
Except: a parse failure at collect (line 76) and a write_database
failure (line 90) both escape main_processing, so they abort the whole
run.  Whether the append for a given file fails is an external fault,
injected through the predicate wf on the file name. -/

/-- The timestamp column of the observations table, as fetched at line
65 by get_postgres_tbl(uri, schema, wd_tbl, ["timestamp"]). -/
def tsColumn (db : List ParsedRow) : List Timestamp :=
  db.map (fun r => r.timestamp)

/-- An uncaught exception escaping main_processing. -/
inductive RunError where
  | parseError (filename : String)
  | writeError (filename : String)
deriving DecidableEq, Repr

/-- The per-file summary printed at line 95: total parsed rows and
appended row counter. -/
structure FileReport where
  filename : String
  total : Nat
  appended : Nat
deriving DecidableEq, Repr

/-- main_processing: for each (file, sensor) task in order, fetch the
timestamp column of the observations table fresh from storage (line 65,
inside the loop), parse the file, run the dedup loop against the fetched
snapshot, and append the surviving rows to storage.  The storage table
is threaded through as the list db of rows.  Each file's append commits
independently, so an uncaught exception carries the storage state at the
moment of the crash: the rows committed for the files processed before
the failing one persist (the failing file's own batch does not, because
the bulk insert fails atomically per batch). -/
def main_processing (wf : String → Bool) :
    List (CsvFile × Int) → List ParsedRow →
    Except (RunError × List ParsedRow) (List ParsedRow × List FileReport)
  | [], db => Except.ok (db, [])
  | (f, s) :: rest, db =>
    match parseFile s f with
    | none => Except.error (RunError.parseError f.name, db)
    | some rows =>
      if wf f.name then Except.error (RunError.writeError f.name, db)
      else
        match main_processing wf rest (db ++ (dedupLoop (tsColumn db) rows).1) with
        | Except.error e => Except.error e
        | Except.ok (dbF, reps) =>
          Except.ok (dbF,
            FileReport.mk f.name rows.length (dedupLoop (tsColumn db) rows).2 :: reps)

/-! ## File discovery (check_for_new_files) -/

/-- Does a file name match the glob pattern *mask*.csv used at line 110:
the name ends in ".csv" and the mask occurs somewhere before that
extension. -/
def globMatch (mask : String) (name : String) : Bool :=
  (".csv".data.isSuffixOf name.data) &&
    hasSubstr mask.data (name.data.take (name.data.length - 4))

/-- The candidate sensor name of a file: the part of the basename before
the first occurrence of the mask (os.path.basename(file).split(mask)[0]). -/
def candidateSensorName (filename mask : String) : String :=
  ⟨takeUntilMatch mask.data (basename filename).data⟩

/-- The sensors whose s_name contains the candidate as a substring
(sensors_df.filter(pl.col("s_name").str.contains(sensor_name))). -/
def matchingSensors (sensors : List Sensor) (cand : String) : List Sensor :=
  sensors.filter (fun s => hasSubstr cand.data s.s_name.data)

/-- Sensor resolution for one file (lines 117 and 121): if the filter
leaves exactly one sensor row the file resolves to its s_id (the [0]
indexing of the filtered frame); otherwise (zero or several matches) the
file is skipped with the unknown-sensor diagnostic. -/
def resolveFile (sensors : List Sensor) (mask : String) (f : CsvFile) : Option Int :=
  if (matchingSensors sensors (candidateSensorName (basename f.name) mask)).length = 1 then
    some (((matchingSensors sensors (candidateSensorName (basename f.name) mask)).headD
      ⟨0, ""⟩).s_id)
  else none

/-- The discovery loop of check_for_new_files (lines 113 to 121),
including its iteration bug.  The Python code runs
for i, file in enumerate(wd_csv_file_lst) and executes
del wd_csv_file_lst[i] in the skip branch.  Both the enumerate counter i
and the internal index of the list iterator advance by one per yielded
element, so i always denotes the position of the element just yielded;
deleting it shifts every later element one slot left while the iterator
index stays put, and the iterator therefore never yields the element
that immediately followed the deleted one.  Hence: resolving a file
keeps going with the remaining suffix, while skipping a file also drops
the next file unexamined.  The loop returns the task list (the insertion
ordered dict file -> s_id) and the candidate names reported in
unknown-sensor diagnostics. -/
def checkLoop (sensors : List Sensor) (mask : String) :
    List CsvFile → List (CsvFile × Int) × List String
  | [] => ([], [])
  | [f] =>
    match resolveFile sensors mask f with
    | some sid => ([(f, sid)], [])
    | none => ([], [candidateSensorName (basename f.name) mask])
  | f :: g :: fs =>
    match resolveFile sensors mask f with
    | some sid =>
      ((f, sid) :: (checkLoop sensors mask (g :: fs)).1, (checkLoop sensors mask (g :: fs)).2)
    | none =>
      ((checkLoop sensors mask fs).1,
        candidateSensorName (basename f.name) mask :: (checkLoop sensors mask fs).2)

/-- check_for_new_files: glob the directory listing with *mask*.csv,
then run the discovery loop.  Returns the task list and the emitted
diagnostics; the caller (main) exits with status 0 when the task list is
empty (lines 126 to 128). -/
def check_for_new_files (sensors : List Sensor) (dirFiles : List CsvFile) (mask : String) :
    List (CsvFile × Int) × List String :=
  checkLoop sensors mask (dirFiles.filter (fun f => globMatch mask f.name))

/-! ## Archiving (archive_processed_files) -/

/-- The destination name built at line 48:
os.path.join(archives_location, basename-without-extension + "_" +
time.strftime("%Y%m%d%H%M%S") + ".csv").  The [:-4] slice drops the
last four characters of the basename. -/
def archiveDestName (archDir file timestr : String) : String :=
  ⟨archDir.data ++ ['/'] ++ (basename file).data.take ((basename file).data.length - 4) ++
    ['_'] ++ timestr.data ++ ".csv".data⟩

/-- shutil.move of a file onto a destination path: if a file with that
name already exists it is overwritten (the archive directory keeps one
file per name), otherwise the name is added. -/
def moveOverwrite (st : List String) (dest : String) : List String :=
  if dest ∈ st then st else st ++ [dest]

/-- The archive loop (lines 43 to 54): for the i-th file,
time.strftime is called (clock i) and the file is moved to the suffixed
destination name. -/
def archiveLoop (clock : Nat → String) (archDir : String) :
    Nat → List String → List String → List String
  | _, st, [] => st
  | i, st, f :: fs =>
    archiveLoop clock archDir (i + 1) (moveOverwrite st (archiveDestName archDir f (clock i))) fs

/-- archive_processed_files on the archive directory state st. -/
def archive_processed_files (clock : Nat → String) (archDir : String)
    (st : List String) (files : List String) : List String :=
  archiveLoop clock archDir 0 st files

/-! ## The whole run (main) -/

/-- Process exit outcome of one run of main.  An aborted run records
the storage table as it stood when the exception escaped: rows already
committed for earlier files of the same run persist. -/
inductive RunOutcome where
  | nothingToDo
  | completed (db : List ParsedRow) (reports : List FileReport) (archiveState : List String)
  | aborted (e : RunError) (db : List ParsedRow)
deriving DecidableEq, Repr

/-- Process exit status: sys.exit() on the empty task set exits with 0,
a normal completion exits with 0, an uncaught exception exits with 1. -/
def exitCode : RunOutcome → Nat
  | RunOutcome.nothingToDo => 0
  | RunOutcome.completed _ _ _ => 0
  | RunOutcome.aborted _ _ => 1

/-- Lines 29 to 31 of main after discovery: run main_processing on the
tasks, then archive every discovered file
(archive_processed_files(list(wd_csv_file_dict.keys()), ...)); an
exception escaping main_processing aborts before any archiving, leaving
storage as it stood at the crash. -/
def runAfterDiscovery (wf : String → Bool) (clock : Nat → String) (archDir : String)
    (tasks : List (CsvFile × Int)) (db : List ParsedRow) (archSt : List String) : RunOutcome :=
  match main_processing wf tasks db with
  | Except.error (e, dbE) => RunOutcome.aborted e dbE
  | Except.ok (dbF, reps) =>
    RunOutcome.completed dbF reps
      (archive_processed_files clock archDir archSt (tasks.map (fun p => p.1.name)))

/-- The whole run: discovery, the nothing-to-do exit on an empty task
set, then processing and archiving. -/
def pipelineMain (wf : String → Bool) (clock : Nat → String) (archDir : String)
    (sensors : List Sensor) (dirFiles : List CsvFile) (mask : String)
    (db : List ParsedRow) (archSt : List String) : RunOutcome :=
  if (check_for_new_files sensors dirFiles mask).1.length = 0 then RunOutcome.nothingToDo
  else runAfterDiscovery wf clock archDir (check_for_new_files sensors dirFiles mask).1 db archSt

/-- The storage table after the run: the final table of a completed
run, the table at the moment of the crash for an aborted run (per-file
commits before the failure persist), and the untouched input table when
the run exits at discovery with nothing to do. -/
def finalDb (db : List ParsedRow) : RunOutcome → List ParsedRow
  | RunOutcome.completed dbF _ _ => dbF
  | RunOutcome.aborted _ dbE => dbE
  | RunOutcome.nothingToDo => db

/-- The archive directory after the run (unchanged unless the run
completed). -/
def finalArchive (archSt : List String) : RunOutcome → List String
  | RunOutcome.completed _ _ a => a
  | _ => archSt

/-! ## Lemmas about the dedup loop -/

/-- The dedup loop computes exactly the filter of the parsed rows by
absence of their timestamp from the snapshot, plus the length of that
filter as the counter. -/
lemma dedupLoop_eq_filter (existing : List Timestamp) (rows : List ParsedRow) :
    dedupLoop existing rows =
      (rows.filter (fun r => !decide (r.timestamp ∈ existing)),
        (rows.filter (fun r => !decide (r.timestamp ∈ existing))).length) := by
  induction rows with
  | nil => rfl
  | cons r rs ih =>
    by_cases h : r.timestamp ∈ existing <;>
      simp [dedupLoop, ih, List.filter_cons, h]

/-- Splitting a list by a Boolean predicate accounts for every element. -/
lemma length_filter_add_length_not {α : Type} (p : α → Bool) (l : List α) :
    (l.filter p).length + (l.filter (fun a => !p a)).length = l.length := by
  induction l with
  | nil => rfl
  | cons a l ih =>
    by_cases h : p a <;> simp [List.filter_cons, h] <;> omega

/-- Membership in the dedup output implies the timestamp was absent from
the snapshot. -/
lemma mem_dedupLoop_fresh {existing : List Timestamp} {rows : List ParsedRow}
    {r : ParsedRow} (h : r ∈ (dedupLoop existing rows).1) :
    r ∈ rows ∧ r.timestamp ∉ existing := by
  rw [dedupLoop_eq_filter] at h
  simp only [List.mem_filter, Bool.not_eq_eq_eq_not, Bool.not_true, decide_eq_false_iff_not] at h
  exact h

/-! ## Lemmas about main_processing -/

/-- A successful main_processing run only appends to storage, and every
appended row's timestamp was absent from the storage snapshot the run
started from. -/
lemma main_processing_ok_extends (wf : String → Bool) (tasks : List (CsvFile × Int)) :
    ∀ db db' reps, main_processing wf tasks db = Except.ok (db', reps) →
      ∃ extra, db' = db ++ extra ∧ ∀ r ∈ extra, r.timestamp ∉ tsColumn db := by
  induction tasks with
  | nil =>
    intro db db' reps h
    simp only [main_processing, Except.ok.injEq, Prod.mk.injEq] at h
    exact ⟨[], by simp [h.1.symm], by simp⟩
  | cons t rest ih =>
    obtain ⟨f, s⟩ := t
    intro db db' reps h
    simp only [main_processing] at h
    split at h
    · cases h
    · rename_i rows hp
      split at h
      · cases h
      · split at h
        · cases h
        · rename_i hw p dbF reps' hrec
          simp only [Except.ok.injEq, Prod.mk.injEq] at h
          obtain ⟨hdb, -⟩ := h
          obtain ⟨extra', heq, hfresh⟩ := ih _ _ _ hrec
          refine ⟨(dedupLoop (tsColumn db) rows).1 ++ extra', ?_, ?_⟩
          · rw [hdb.symm, heq, List.append_assoc]
          · intro r hr
            rcases List.mem_append.mp hr with hr | hr
            · exact (mem_dedupLoop_fresh hr).2
            · have := hfresh r hr
              simp only [tsColumn, List.map_append, List.mem_append] at this
              exact fun hc => this (Or.inl hc)

/-- After a successful main_processing run, every timestamp of every row
of every successfully parsed task file is present in the final storage
table: either it was in the snapshot for that file (which is contained
in the final table) or the row was appended. -/
lemma main_processing_ok_covers (wf : String → Bool) (tasks : List (CsvFile × Int)) :
    ∀ db db' reps, main_processing wf tasks db = Except.ok (db', reps) →
      ∀ f s rows, (f, s) ∈ tasks → parseFile s f = some rows →
        ∀ r ∈ rows, r.timestamp ∈ tsColumn db' := by
  induction tasks with
  | nil =>
    intro db db' reps h f s rows hmem
    cases hmem
  | cons t rest ih =>
    obtain ⟨f0, s0⟩ := t
    intro db db' reps h f s rows hmem hp r hr
    simp only [main_processing] at h
    split at h
    · cases h
    · rename_i rows0 hp0
      split at h
      · cases h
      · split at h
        · cases h
        · rename_i hw p dbF reps' hrec
          simp only [Except.ok.injEq, Prod.mk.injEq] at h
          obtain ⟨hdb, -⟩ := h
          subst hdb
          rcases List.mem_cons.mp hmem with hhead | htail
          · injection hhead with hf hs
            subst hf; subst hs
            rw [hp] at hp0
            injection hp0 with hrows
            subst hrows
            obtain ⟨extra', heq, -⟩ := main_processing_ok_extends wf rest _ _ _ hrec
            subst heq
            have hmem2 : r.timestamp ∈ tsColumn (db ++ (dedupLoop (tsColumn db) rows).1) := by
              by_cases hm : r.timestamp ∈ tsColumn db
              · simp only [tsColumn, List.map_append, List.mem_append]
                exact Or.inl hm
              · have hin : r ∈ (dedupLoop (tsColumn db) rows).1 := by
                  rw [dedupLoop_eq_filter]
                  exact List.mem_filter.mpr ⟨hr, by simp [hm]⟩
                simp only [tsColumn, List.map_append, List.mem_append, List.mem_map]
                exact Or.inr ⟨r, hin, rfl⟩
            simp only [tsColumn, List.map_append, List.mem_append] at hmem2 ⊢
            rcases hmem2 with h2 | h2
            · exact Or.inl (Or.inl h2)
            · exact Or.inl (Or.inr h2)
          · exact ih _ _ _ hrec f s rows htail hp r hr

/-- A successful main_processing run preserves duplicate-freeness of the
timestamp column, provided each task file parses to rows with pairwise
distinct timestamps. -/
lemma main_processing_ok_nodup (wf : String → Bool) (tasks : List (CsvFile × Int)) :
    ∀ db db' reps, main_processing wf tasks db = Except.ok (db', reps) →
      (tsColumn db).Nodup →
      (∀ f s rows, (f, s) ∈ tasks → parseFile s f = some rows →
        (rows.map (fun r => r.timestamp)).Nodup) →
      (tsColumn db').Nodup := by
  induction tasks with
  | nil =>
    intro db db' reps h hnd hfiles
    simp only [main_processing, Except.ok.injEq, Prod.mk.injEq] at h
    rw [← h.1]
    exact hnd
  | cons t rest ih =>
    obtain ⟨f0, s0⟩ := t
    intro db db' reps h hnd hfiles
    simp only [main_processing] at h
    split at h
    · cases h
    · rename_i rows0 hp0
      split at h
      · cases h
      · split at h
        · cases h
        · rename_i hw p dbF reps' hrec
          simp only [Except.ok.injEq, Prod.mk.injEq] at h
          obtain ⟨hdb, -⟩ := h
          subst hdb
          have hstep : (tsColumn (db ++ (dedupLoop (tsColumn db) rows0).1)).Nodup := by
            have hnew : ((dedupLoop (tsColumn db) rows0).1.map
                (fun r => r.timestamp)).Nodup := by
              have hsub : (dedupLoop (tsColumn db) rows0).1.Sublist rows0 := by
                rw [dedupLoop_eq_filter]
                exact List.filter_sublist rows0
              exact (hfiles f0 s0 rows0 (List.mem_cons_self _ _) hp0).sublist
                (hsub.map (fun r => r.timestamp))
            have hdisj : (tsColumn db).Disjoint
                ((dedupLoop (tsColumn db) rows0).1.map (fun r => r.timestamp)) := by
              intro a ha hb
              obtain ⟨r, hrmem, hreq⟩ := List.mem_map.mp hb
              exact absurd (hreq ▸ ha) (mem_dedupLoop_fresh hrmem).2
            simp only [tsColumn, List.map_append] at *
            exact List.nodup_append.mpr ⟨hnd, hnew, hdisj⟩
          refine ih _ _ _ hrec hstep ?_
          intro f s rows hmem hp
          exact hfiles f s rows (List.mem_cons_of_mem _ hmem) hp

/-- When a timestamp is absent from the snapshot, the dedup loop keeps
every occurrence of it: the loop never compares a row against rows
earlier in the same file. -/
lemma dedupLoop_countP_fresh {ex : List Timestamp} {t : Timestamp} (ht : t ∉ ex) :
    ∀ rows : List ParsedRow,
      (dedupLoop ex rows).1.countP (fun r => decide (r.timestamp = t)) =
        rows.countP (fun r => decide (r.timestamp = t))
  | [] => rfl
  | r :: rs => by
    by_cases hm : r.timestamp ∈ ex
    · have hne : ¬(r.timestamp = t) := fun he => ht (he ▸ hm)
      simp [dedupLoop, hm, List.countP_cons, hne, dedupLoop_countP_fresh ht rs]
    · simp [dedupLoop, hm, List.countP_cons, dedupLoop_countP_fresh ht rs]

/-! ## Sample data for concrete instantiations -/

/-- The header line of a sample file (always skipped by skip_rows = 1). -/
def hdrRow : RawRow := ⟨"timestamp", "temp_C", "rel_humidity_PC", "dpt_C", "vpd_kPa", "abs_humidity_G_M3"⟩

/-- A data line with timestamp Jan 01 2024 00:00. -/
def rawJan1 : RawRow := ⟨"Jan 01 2024 00:00", "20", "55", "10", "1", "8"⟩

/-- A data line with timestamp Jan 02 2024 00:00. -/
def rawJan2 : RawRow := ⟨"Jan 02 2024 00:00", "21", "50", "9", "1", "7"⟩

/-- A data line whose timestamp does not match "%b %d %Y %H:%M". -/
def rawBad : RawRow := ⟨"not a date", "20", "55", "10", "1", "8"⟩

/-- The parsed instant Jan 01 2024 00:00. -/
def tsJan1 : Timestamp := ⟨2024, 1, 1, 0, 0⟩

/-- The parsed instant Jan 02 2024 00:00. -/
def tsJan2 : Timestamp := ⟨2024, 1, 2, 0, 0⟩

/-! ## Claim theorems -/

/-- C2 (confirmed): for every parsed file and every snapshot of existing
timestamps, the dedup step outputs exactly the parsed rows whose
canonicalised timestamp (the parsed instant, which is what both the rows
and the snapshot carry at this point of main_processing) is absent from
the snapshot; the output is the filter of the input, hence a sublist in
the original row order; the appended counter equals the output length;
and committed count plus already-present count equals the total number
of parsed rows.  The snapshot is a value the loop only reads, which the
pure embedding reflects by construction. -/
theorem C2_dedup_exactly_filter (s : Int) (f : CsvFile) (rows : List ParsedRow)
    (existing : List Timestamp) (hp : parseFile s f = some rows) :
    (dedupLoop existing rows).1 =
      rows.filter (fun r => !decide (r.timestamp ∈ existing)) ∧
    (dedupLoop existing rows).1.Sublist rows ∧
    (dedupLoop existing rows).2 = (dedupLoop existing rows).1.length ∧
    (dedupLoop existing rows).2 +
      (rows.filter (fun r => decide (r.timestamp ∈ existing))).length = rows.length := by
  have h := dedupLoop_eq_filter existing rows
  have hsplit : ∀ l : List ParsedRow,
      (l.filter (fun r => !decide (r.timestamp ∈ existing))).length +
        (l.filter (fun r => decide (r.timestamp ∈ existing))).length = l.length := by
    intro l
    induction l with
    | nil => rfl
    | cons r rs ih =>
      by_cases hm : r.timestamp ∈ existing <;>
        simp [List.filter_cons, hm] <;> omega
  exact ⟨by rw [h], by rw [h]; exact List.filter_sublist rows, by rw [h],
    by rw [h]; exact hsplit rows⟩

/-- Witness for C2 at a concrete file: two rows, the first one's
timestamp already in the snapshot. -/
theorem C2_dedup_exactly_filter_witness :
    (dedupLoop [tsJan1] [⟨tsJan1, 20, 55, 10, 1, 8, 1⟩, ⟨tsJan2, 21, 50, 9, 1, 7, 1⟩]).1 =
      ([⟨tsJan1, 20, 55, 10, 1, 8, 1⟩, ⟨tsJan2, 21, 50, 9, 1, 7, 1⟩] : List ParsedRow).filter
        (fun r => !decide (r.timestamp ∈ [tsJan1])) ∧
    (dedupLoop [tsJan1] [⟨tsJan1, 20, 55, 10, 1, 8, 1⟩, ⟨tsJan2, 21, 50, 9, 1, 7, 1⟩]).1.Sublist
      [⟨tsJan1, 20, 55, 10, 1, 8, 1⟩, ⟨tsJan2, 21, 50, 9, 1, 7, 1⟩] ∧
    (dedupLoop [tsJan1] [⟨tsJan1, 20, 55, 10, 1, 8, 1⟩, ⟨tsJan2, 21, 50, 9, 1, 7, 1⟩]).2 =
      (dedupLoop [tsJan1] [⟨tsJan1, 20, 55, 10, 1, 8, 1⟩, ⟨tsJan2, 21, 50, 9, 1, 7, 1⟩]).1.length ∧
    (dedupLoop [tsJan1] [⟨tsJan1, 20, 55, 10, 1, 8, 1⟩, ⟨tsJan2, 21, 50, 9, 1, 7, 1⟩]).2 +
      (([⟨tsJan1, 20, 55, 10, 1, 8, 1⟩, ⟨tsJan2, 21, 50, 9, 1, 7, 1⟩] : List ParsedRow).filter
        (fun r => decide (r.timestamp ∈ [tsJan1]))).length = 2 :=
  C2_dedup_exactly_filter 1 ⟨"A_m.csv", [hdrRow, rawJan1, rawJan2]⟩
    [⟨tsJan1, 20, 55, 10, 1, 8, 1⟩, ⟨tsJan2, 21, 50, 9, 1, 7, 1⟩] [tsJan1] rfl

/-- C10 (confirmed): deduplication compares each row only against the
storage snapshot, never against rows earlier in the same file: for a
single-file run, every occurrence of a timestamp absent from the
snapshot is appended, so the multiplicity of that timestamp in storage
grows by its full multiplicity in the parsed file. -/
theorem C10_intra_file_duplicates_all_appended (wf : String → Bool) (f : CsvFile) (s : Int)
    (db : List ParsedRow) (rows : List ParsedRow) (db' : List ParsedRow)
    (reps : List FileReport) (t : Timestamp)
    (hp : parseFile s f = some rows)
    (hok : main_processing wf [(f, s)] db = Except.ok (db', reps))
    (ht : t ∉ tsColumn db) :
    db'.countP (fun r => decide (r.timestamp = t)) =
      db.countP (fun r => decide (r.timestamp = t)) +
        rows.countP (fun r => decide (r.timestamp = t)) := by
  simp only [main_processing] at hok
  split at hok
  · cases hok
  · rename_i rows0 hp0
    rw [hp] at hp0
    injection hp0 with hrows
    subst hrows
    split at hok
    · cases hok
    · simp only [Except.ok.injEq, Prod.mk.injEq] at hok
      obtain ⟨hdb, -⟩ := hok
      rw [← hdb, List.countP_append]
      rw [dedupLoop_countP_fresh ht rows]

/-- Witness for C10: a file whose two data lines carry the same
timestamp; both of them end up in storage. -/
theorem C10_intra_file_duplicates_all_appended_witness :
    ([⟨tsJan1, 20, 55, 10, 1, 8, 3⟩, ⟨tsJan1, 20, 55, 10, 1, 8, 3⟩] : List ParsedRow).countP
        (fun r => decide (r.timestamp = tsJan1)) =
      ([] : List ParsedRow).countP (fun r => decide (r.timestamp = tsJan1)) +
        ([⟨tsJan1, 20, 55, 10, 1, 8, 3⟩, ⟨tsJan1, 20, 55, 10, 1, 8, 3⟩] :
          List ParsedRow).countP (fun r => decide (r.timestamp = tsJan1)) :=
  C10_intra_file_duplicates_all_appended (fun _ => false)
    ⟨"D_m.csv", [hdrRow, rawJan1, rawJan1]⟩ 3 []
    [⟨tsJan1, 20, 55, 10, 1, 8, 3⟩, ⟨tsJan1, 20, 55, 10, 1, 8, 3⟩]
    [⟨tsJan1, 20, 55, 10, 1, 8, 3⟩, ⟨tsJan1, 20, 55, 10, 1, 8, 3⟩]
    [⟨"D_m.csv", 2, 2⟩] tsJan1 rfl rfl (by decide)

/-- C1 as stated is refuted: storage already holds the instant
Jan 01 2024 00:00 for sensor 1; a processed file for sensor 2 contains
the pair (2, Jan 01 2024 00:00); the run succeeds but appends nothing,
because the dedup key is the timestamp alone, so afterwards storage
holds no row at all for the (sensor 2, Jan 01 2024 00:00) pair: a new
(sensor_id, timestamp) pair from a processed file is lost. -/
theorem C1_counterexample :
    main_processing (fun _ => false) [(⟨"B_m.csv", [hdrRow, rawJan1]⟩, 2)]
      [⟨tsJan1, 20, 55, 10, 1, 8, 1⟩] =
      Except.ok ([⟨tsJan1, 20, 55, 10, 1, 8, 1⟩], [⟨"B_m.csv", 1, 0⟩]) ∧
    ([⟨tsJan1, 20, 55, 10, 1, 8, 1⟩] : List ParsedRow).countP
      (fun r => decide (r.sensor = 2 ∧ r.timestamp = tsJan1)) = 0 :=
  ⟨rfl, rfl⟩

/-- C1 amended (proved): the exactly-once invariant holds at timestamp
granularity, not (sensor_id, timestamp) granularity.  After a successful
run, provided the initial storage timestamps are duplicate-free and
every task file parses to rows with pairwise distinct timestamps: the
final timestamp column is duplicate-free (so each timestamp has exactly
one row), every timestamp of every processed file is present in storage,
and the run only appended rows whose timestamp was not already in
storage for any sensor. -/
theorem C1_amended_exactly_once_by_timestamp (wf : String → Bool)
    (tasks : List (CsvFile × Int)) (db db' : List ParsedRow) (reps : List FileReport)
    (hok : main_processing wf tasks db = Except.ok (db', reps))
    (hnd : (tsColumn db).Nodup)
    (hfiles : ∀ f s rows, (f, s) ∈ tasks → parseFile s f = some rows →
      (rows.map (fun r => r.timestamp)).Nodup) :
    (tsColumn db').Nodup ∧
    (∀ f s rows, (f, s) ∈ tasks → parseFile s f = some rows →
      ∀ r ∈ rows, r.timestamp ∈ tsColumn db') ∧
    ∃ extra, db' = db ++ extra ∧ ∀ r ∈ extra, r.timestamp ∉ tsColumn db :=
  ⟨main_processing_ok_nodup wf tasks db db' reps hok hnd hfiles,
    main_processing_ok_covers wf tasks db db' reps hok,
    main_processing_ok_extends wf tasks db db' reps hok⟩

/-- Witness for the amended C1 at a concrete run: one file for sensor 2
with a fresh timestamp, storage holding one row for sensor 1; the final
timestamp column is duplicate-free. -/
theorem C1_amended_exactly_once_by_timestamp_witness :
    (tsColumn [⟨tsJan1, 20, 55, 10, 1, 8, 1⟩, ⟨tsJan2, 21, 50, 9, 1, 7, 2⟩]).Nodup :=
  (C1_amended_exactly_once_by_timestamp (fun _ => false)
    [(⟨"B_m.csv", [hdrRow, rawJan2]⟩, 2)]
    [⟨tsJan1, 20, 55, 10, 1, 8, 1⟩]
    [⟨tsJan1, 20, 55, 10, 1, 8, 1⟩, ⟨tsJan2, 21, 50, 9, 1, 7, 2⟩]
    [⟨"B_m.csv", 1, 1⟩] rfl (by decide)
    (by
      intro f s rows hmem hp
      simp only [List.mem_singleton] at hmem
      injection hmem with h1 h2
      subst h1; subst h2
      rw [show parseFile 2 ⟨"B_m.csv", [hdrRow, rawJan2]⟩ =
        some [⟨tsJan2, 21, 50, 9, 1, 7, 2⟩] from rfl] at hp
      injection hp with h3
      subst h3
      decide)).1

/-- C3 as stated is refuted: the script has no exception handler around
parsing (csv_to_lazy_df, the strptime transformations and collect run
bare inside the loop of main_processing), so a malformed row in the
first file aborts the whole run: the second, well-formed file is never
processed and the run exits with an error status, instead of continuing
with the next file. -/
theorem C3_counterexample :
    main_processing (fun _ => false)
      [(⟨"Bad_m.csv", [hdrRow, rawBad]⟩, 1), (⟨"Good_m.csv", [hdrRow, rawJan1]⟩, 2)] [] =
      Except.error (RunError.parseError "Bad_m.csv", []) ∧
    runAfterDiscovery (fun _ => false) (fun _ => "20240101120000") "arch"
      [(⟨"Bad_m.csv", [hdrRow, rawBad]⟩, 1), (⟨"Good_m.csv", [hdrRow, rawJan1]⟩, 2)] [] [] =
      RunOutcome.aborted (RunError.parseError "Bad_m.csv") [] ∧
    exitCode (RunOutcome.aborted (RunError.parseError "Bad_m.csv") []) = 1 ∧
    finalArchive [] (RunOutcome.aborted (RunError.parseError "Bad_m.csv") []) = [] :=
  ⟨rfl, rfl, rfl, rfl⟩

/-- C3 amended (proved): if parsing any row of a file fails, the
exception propagates uncaught: that file's processing stops, the whole
run aborts with a nonzero exit status, the remaining files are not
processed, storage keeps its prior content and no file is archived. -/
theorem C3_amended_parse_failure_aborts_run (wf : String → Bool) (clock : Nat → String)
    (archDir : String) (f : CsvFile) (s : Int) (rest : List (CsvFile × Int))
    (db : List ParsedRow) (archSt : List String)
    (hp : parseFile s f = none) :
    main_processing wf ((f, s) :: rest) db = Except.error (RunError.parseError f.name, db) ∧
    runAfterDiscovery wf clock archDir ((f, s) :: rest) db archSt =
      RunOutcome.aborted (RunError.parseError f.name) db ∧
    exitCode (runAfterDiscovery wf clock archDir ((f, s) :: rest) db archSt) = 1 ∧
    finalDb db (runAfterDiscovery wf clock archDir ((f, s) :: rest) db archSt) = db ∧
    finalArchive archSt (runAfterDiscovery wf clock archDir ((f, s) :: rest) db archSt) =
      archSt := by
  have h1 : main_processing wf ((f, s) :: rest) db =
      Except.error (RunError.parseError f.name, db) := by
    simp [main_processing, hp]
  have h2 : runAfterDiscovery wf clock archDir ((f, s) :: rest) db archSt =
      RunOutcome.aborted (RunError.parseError f.name) db := by
    simp [runAfterDiscovery, h1]
  exact ⟨h1, h2, by rw [h2]; rfl, by rw [h2]; rfl, by rw [h2]; rfl⟩

/-- Witness for the amended C3: a malformed first file aborts a two-file
run before the second file and before archiving. -/
theorem C3_amended_parse_failure_aborts_run_witness :
    main_processing (fun _ => false)
      [(⟨"Bad_m.csv", [hdrRow, rawBad]⟩, 1), (⟨"Good_m.csv", [hdrRow, rawJan1]⟩, 2)] [] =
      Except.error (RunError.parseError "Bad_m.csv", []) ∧
    runAfterDiscovery (fun _ => false) (fun _ => "20240101120000") "arch"
      [(⟨"Bad_m.csv", [hdrRow, rawBad]⟩, 1), (⟨"Good_m.csv", [hdrRow, rawJan1]⟩, 2)] [] [] =
      RunOutcome.aborted (RunError.parseError "Bad_m.csv") [] ∧
    exitCode (runAfterDiscovery (fun _ => false) (fun _ => "20240101120000") "arch"
      [(⟨"Bad_m.csv", [hdrRow, rawBad]⟩, 1), (⟨"Good_m.csv", [hdrRow, rawJan1]⟩, 2)] [] []) = 1 ∧
    finalDb [] (runAfterDiscovery (fun _ => false) (fun _ => "20240101120000") "arch"
      [(⟨"Bad_m.csv", [hdrRow, rawBad]⟩, 1), (⟨"Good_m.csv", [hdrRow, rawJan1]⟩, 2)] [] []) = [] ∧
    finalArchive [] (runAfterDiscovery (fun _ => false) (fun _ => "20240101120000") "arch"
      [(⟨"Bad_m.csv", [hdrRow, rawBad]⟩, 1), (⟨"Good_m.csv", [hdrRow, rawJan1]⟩, 2)] [] []) = [] :=
  C3_amended_parse_failure_aborts_run (fun _ => false) (fun _ => "20240101120000") "arch"
    ⟨"Bad_m.csv", [hdrRow, rawBad]⟩ 1 [(⟨"Good_m.csv", [hdrRow, rawJan1]⟩, 2)] [] [] rfl

/-- C4 as stated is refuted: in a two-file run where the first file's
append succeeds and the second file's append fails, the uncaught write
exception aborts the run before archive_processed_files is ever called,
so the first file - whose append succeeded, its row persisting in
storage at the crash - is not archived either, contradicting the claim
that files whose append succeeded are archived. -/
theorem C4_counterexample :
    main_processing (fun n => n == "B_m.csv") [(⟨"A_m.csv", [hdrRow, rawJan1]⟩, 1)] [] =
      Except.ok ([⟨tsJan1, 20, 55, 10, 1, 8, 1⟩], [⟨"A_m.csv", 1, 1⟩]) ∧
    main_processing (fun n => n == "B_m.csv")
      [(⟨"A_m.csv", [hdrRow, rawJan1]⟩, 1), (⟨"B_m.csv", [hdrRow, rawJan2]⟩, 2)] [] =
      Except.error (RunError.writeError "B_m.csv", [⟨tsJan1, 20, 55, 10, 1, 8, 1⟩]) ∧
    runAfterDiscovery (fun n => n == "B_m.csv") (fun _ => "20240101120000") "arch"
      [(⟨"A_m.csv", [hdrRow, rawJan1]⟩, 1), (⟨"B_m.csv", [hdrRow, rawJan2]⟩, 2)] [] [] =
      RunOutcome.aborted (RunError.writeError "B_m.csv") [⟨tsJan1, 20, 55, 10, 1, 8, 1⟩] ∧
    finalDb [] (RunOutcome.aborted (RunError.writeError "B_m.csv")
      [⟨tsJan1, 20, 55, 10, 1, 8, 1⟩]) = [⟨tsJan1, 20, 55, 10, 1, 8, 1⟩] ∧
    finalArchive [] (RunOutcome.aborted (RunError.writeError "B_m.csv")
      [⟨tsJan1, 20, 55, 10, 1, 8, 1⟩]) = [] :=
  ⟨rfl, rfl, rfl, rfl, rfl⟩

/-- C4 amended (proved): a failed append aborts the whole run before
any archiving, so no file at all is archived in that run: the failing
file is indeed excluded from archival (it stays in the intake directory
for a later retry), but so is every other file of the run, including
files whose own append had already succeeded - their committed rows
remain in storage (the crash leaves the table as it stood) while their
source files stay in intake.  Archiving happens only in runs where every
append succeeds. -/
theorem C4_amended_write_failure_aborts_archival (wf : String → Bool) (clock : Nat → String)
    (archDir : String) (tasks : List (CsvFile × Int)) (db : List ParsedRow)
    (archSt : List String) (fname : String) (dbAtFail : List ParsedRow)
    (h : main_processing wf tasks db = Except.error (RunError.writeError fname, dbAtFail)) :
    runAfterDiscovery wf clock archDir tasks db archSt =
      RunOutcome.aborted (RunError.writeError fname) dbAtFail ∧
    finalArchive archSt (runAfterDiscovery wf clock archDir tasks db archSt) = archSt ∧
    finalDb db (runAfterDiscovery wf clock archDir tasks db archSt) = dbAtFail ∧
    exitCode (runAfterDiscovery wf clock archDir tasks db archSt) = 1 := by
  have h2 : runAfterDiscovery wf clock archDir tasks db archSt =
      RunOutcome.aborted (RunError.writeError fname) dbAtFail := by
    simp [runAfterDiscovery, h]
  exact ⟨h2, by rw [h2]; rfl, by rw [h2]; rfl, by rw [h2]; rfl⟩

/-- Witness for the amended C4: the append of the second file fails; the
run aborts with the first file's row already committed, and the archive
directory is untouched. -/
theorem C4_amended_write_failure_aborts_archival_witness :
    runAfterDiscovery (fun n => n == "B_m.csv") (fun _ => "20240101120000") "arch"
      [(⟨"A_m.csv", [hdrRow, rawJan1]⟩, 1), (⟨"B_m.csv", [hdrRow, rawJan2]⟩, 2)] [] [] =
      RunOutcome.aborted (RunError.writeError "B_m.csv") [⟨tsJan1, 20, 55, 10, 1, 8, 1⟩] ∧
    finalArchive [] (runAfterDiscovery (fun n => n == "B_m.csv") (fun _ => "20240101120000")
      "arch" [(⟨"A_m.csv", [hdrRow, rawJan1]⟩, 1), (⟨"B_m.csv", [hdrRow, rawJan2]⟩, 2)] [] []) =
      [] ∧
    finalDb [] (runAfterDiscovery (fun n => n == "B_m.csv") (fun _ => "20240101120000")
      "arch" [(⟨"A_m.csv", [hdrRow, rawJan1]⟩, 1), (⟨"B_m.csv", [hdrRow, rawJan2]⟩, 2)] [] []) =
      [⟨tsJan1, 20, 55, 10, 1, 8, 1⟩] ∧
    exitCode (runAfterDiscovery (fun n => n == "B_m.csv") (fun _ => "20240101120000")
      "arch" [(⟨"A_m.csv", [hdrRow, rawJan1]⟩, 1), (⟨"B_m.csv", [hdrRow, rawJan2]⟩, 2)] [] []) =
      1 :=
  C4_amended_write_failure_aborts_archival (fun n => n == "B_m.csv")
    (fun _ => "20240101120000") "arch"
    [(⟨"A_m.csv", [hdrRow, rawJan1]⟩, 1), (⟨"B_m.csv", [hdrRow, rawJan2]⟩, 2)] [] []
    "B_m.csv" [⟨tsJan1, 20, 55, 10, 1, 8, 1⟩] rfl

/-- C7 (confirmed): the existing-timestamp snapshot is fetched (as
tsColumn of the current storage state) inside the per-file loop, right
before that file's dedup step; processing the head file continues with
storage extended by that file's committed rows, so every later file's
dedup runs against a snapshot that contains them.  Consequently, in a
successful run, no row appended for any later file carries a timestamp
committed for the head file. -/
theorem C7_snapshot_fetched_fresh_per_file (wf : String → Bool) (f : CsvFile) (s : Int)
    (rest : List (CsvFile × Int)) (db : List ParsedRow) (rows : List ParsedRow)
    (hp : parseFile s f = some rows) (hw : wf f.name = false) :
    main_processing wf ((f, s) :: rest) db =
      (main_processing wf rest (db ++ (dedupLoop (tsColumn db) rows).1)).map
        (fun p => (p.1,
          FileReport.mk f.name rows.length (dedupLoop (tsColumn db) rows).2 :: p.2)) ∧
    ∀ db' reps, main_processing wf ((f, s) :: rest) db = Except.ok (db', reps) →
      ∀ r ∈ db'.drop (db.length + (dedupLoop (tsColumn db) rows).1.length),
        r.timestamp ∉ tsColumn (dedupLoop (tsColumn db) rows).1 := by
  have heq : main_processing wf ((f, s) :: rest) db =
      (main_processing wf rest (db ++ (dedupLoop (tsColumn db) rows).1)).map
        (fun p => (p.1,
          FileReport.mk f.name rows.length (dedupLoop (tsColumn db) rows).2 :: p.2)) := by
    simp only [main_processing, hp, hw, Bool.false_eq_true, if_false]
    cases main_processing wf rest (db ++ (dedupLoop (tsColumn db) rows).1) with
    | error e => rfl
    | ok p => obtain ⟨dbF, reps'⟩ := p; rfl
  refine ⟨heq, ?_⟩
  intro db' reps hok r hr
  rw [heq] at hok
  cases hrec : main_processing wf rest (db ++ (dedupLoop (tsColumn db) rows).1) with
  | error e => rw [hrec] at hok; cases hok
  | ok p =>
    obtain ⟨dbF, reps'⟩ := p
    rw [hrec] at hok
    simp only [Except.map, Except.ok.injEq, Prod.mk.injEq] at hok
    obtain ⟨hdb, -⟩ := hok
    subst hdb
    obtain ⟨extra, heq2, hfresh⟩ := main_processing_ok_extends wf rest _ _ _ hrec
    subst heq2
    rw [show db.length + (dedupLoop (tsColumn db) rows).1.length =
      (db ++ (dedupLoop (tsColumn db) rows).1).length by simp] at hr
    rw [List.drop_left] at hr
    have := hfresh r hr
    simp only [tsColumn, List.map_append, List.mem_append] at this
    exact fun hc => this (Or.inr hc)

/-- Witness for C7 at a concrete two-file run: the head file commits
Jan 02 2024 00:00 and the recursion continues on the extended storage. -/
theorem C7_snapshot_fetched_fresh_per_file_witness :
    main_processing (fun _ => false)
      [(⟨"A_m.csv", [hdrRow, rawJan2]⟩, 1), (⟨"B_m.csv", [hdrRow, rawJan2]⟩, 2)]
      [⟨tsJan1, 20, 55, 10, 1, 8, 1⟩] =
      (main_processing (fun _ => false) [(⟨"B_m.csv", [hdrRow, rawJan2]⟩, 2)]
        ([⟨tsJan1, 20, 55, 10, 1, 8, 1⟩] ++
          (dedupLoop (tsColumn [⟨tsJan1, 20, 55, 10, 1, 8, 1⟩])
            [⟨tsJan2, 21, 50, 9, 1, 7, 1⟩]).1)).map
        (fun p => (p.1, FileReport.mk "A_m.csv" 1
          (dedupLoop (tsColumn [⟨tsJan1, 20, 55, 10, 1, 8, 1⟩])
            [⟨tsJan2, 21, 50, 9, 1, 7, 1⟩]).2 :: p.2)) :=
  (C7_snapshot_fetched_fresh_per_file (fun _ => false) ⟨"A_m.csv", [hdrRow, rawJan2]⟩ 1
    [(⟨"B_m.csv", [hdrRow, rawJan2]⟩, 2)] [⟨tsJan1, 20, 55, 10, 1, 8, 1⟩]
    [⟨tsJan2, 21, 50, 9, 1, 7, 1⟩] rfl rfl).1

/-- C5 is violated by the code (an iteration bug): in a directory whose
listing matches two files, the first resolving to no known sensor and
the second resolving to exactly one, discovery returns an empty task set
and a diagnostic only for the first file.  The second file matches the
glob and would resolve to sensor 1, yet it is neither included in the
task set nor diagnosed: del wd_csv_file_lst[i] during the enumerate
iteration makes the loop skip the element after every skipped file. -/
theorem C5_matched_file_silently_dropped :
    check_for_new_files [⟨1, "Good"⟩] [⟨"Bad_m.csv", []⟩, ⟨"Good_m.csv", []⟩] "_m" =
      ([], ["Bad"]) ∧
    globMatch "_m" "Good_m.csv" = true ∧
    resolveFile [⟨1, "Good"⟩] "_m" ⟨"Good_m.csv", []⟩ = some 1 :=
  ⟨rfl, rfl, rfl⟩

/-- C6 (confirmed): a candidate name matching more than one known
sensor takes the same branch as zero matches (length different from 1):
the file resolves to no sensor, discovery emits the diagnostic naming
the candidate and (because of the deletion bug) continues past the
following file, exactly as for zero matches; in particular, with catalog
sensors North and NorthEast and the file North_2024.csv under mask
_2024, the candidate North matches both sensors and the file is skipped
with its diagnostic, not assigned to either sensor. -/
theorem C6_ambiguous_match_skipped (sensors : List Sensor) (mask : String) (f g : CsvFile)
    (fs : List CsvFile)
    (h : 2 ≤ (matchingSensors sensors (candidateSensorName (basename f.name) mask)).length) :
    resolveFile sensors mask f = none ∧
    checkLoop sensors mask (f :: g :: fs) =
      ((checkLoop sensors mask fs).1,
        candidateSensorName (basename f.name) mask :: (checkLoop sensors mask fs).2) ∧
    check_for_new_files [⟨1, "North"⟩, ⟨2, "NorthEast"⟩] [⟨"North_2024.csv", []⟩] "_2024" =
      ([], ["North"]) := by
  have hne : ¬((matchingSensors sensors
      (candidateSensorName (basename f.name) mask)).length = 1) := by omega
  have hres : resolveFile sensors mask f = none := by
    simp only [resolveFile]
    exact if_neg hne
  exact ⟨hres, by simp [checkLoop, hres], rfl⟩

/-- Witness for C6 at the concrete North / NorthEast catalog. -/
theorem C6_ambiguous_match_skipped_witness :
    resolveFile [⟨1, "North"⟩, ⟨2, "NorthEast"⟩] "_2024" ⟨"North_2024.csv", []⟩ = none ∧
    checkLoop [⟨1, "North"⟩, ⟨2, "NorthEast"⟩] "_2024"
      [⟨"North_2024.csv", []⟩, ⟨"Other_2024.csv", []⟩] =
      ((checkLoop [⟨1, "North"⟩, ⟨2, "NorthEast"⟩] "_2024" []).1,
        candidateSensorName (basename "North_2024.csv") "_2024" ::
          (checkLoop [⟨1, "North"⟩, ⟨2, "NorthEast"⟩] "_2024" []).2) ∧
    check_for_new_files [⟨1, "North"⟩, ⟨2, "NorthEast"⟩] [⟨"North_2024.csv", []⟩] "_2024" =
      ([], ["North"]) :=
  C6_ambiguous_match_skipped [⟨1, "North"⟩, ⟨2, "NorthEast"⟩] "_2024"
    ⟨"North_2024.csv", []⟩ ⟨"Other_2024.csv", []⟩ [] (by decide)

/-- The archive destination name determines the timestamp suffix: equal
destination names for the same directory and file force equal timestamp
strings. -/
lemma archiveDestName_timestr_inj {archDir file t1 t2 : String}
    (h : archiveDestName archDir file t1 = archiveDestName archDir file t2) : t1 = t2 := by
  have hd : (archiveDestName archDir file t1).data = (archiveDestName archDir file t2).data := by
    rw [h]
  simp only [archiveDestName, List.append_assoc, List.singleton_append,
    List.append_cancel_left_eq, List.cons.injEq, List.append_cancel_right_eq, true_and] at hd
  exact congrArg String.mk hd

/-- C8 as stated is refuted: time.strftime("%Y%m%d%H%M%S") has second
precision, so archiving the same base filename twice within the same
second builds the same destination name and shutil.move overwrites the
first archive: the archive directory ends up with one file, not two. -/
theorem C8_counterexample :
    archive_processed_files (fun _ => "20240101120000") "arch"
      (archive_processed_files (fun _ => "20240101120000") "arch" [] ["X_m.csv"])
      ["X_m.csv"] = ["arch/X_m_20240101120000.csv"] ∧
    (archive_processed_files (fun _ => "20240101120000") "arch"
      (archive_processed_files (fun _ => "20240101120000") "arch" [] ["X_m.csv"])
      ["X_m.csv"]).length = 1 :=
  ⟨rfl, rfl⟩

/-- C8 amended (proved): the suffix does prevent overwrites across
distinct seconds: two archives of the same base filename taken at
different strftime values get distinct destination names and coexist as
two files; only within the same second do the names collide and the
second move overwrite the first. -/
theorem C8_amended_distinct_seconds_no_overwrite (archDir file t1 t2 : String)
    (h : t1 ≠ t2) :
    archiveDestName archDir file t1 ≠ archiveDestName archDir file t2 ∧
    archive_processed_files (fun _ => t2) archDir
        (archive_processed_files (fun _ => t1) archDir [] [file]) [file] =
      [archiveDestName archDir file t1, archiveDestName archDir file t2] := by
  have hne : archiveDestName archDir file t1 ≠ archiveDestName archDir file t2 :=
    fun he => h (archiveDestName_timestr_inj he)
  refine ⟨hne, ?_⟩
  simp [archive_processed_files, archiveLoop, moveOverwrite, Ne.symm hne]

/-- Witness for the amended C8 at two concrete second stamps. -/
theorem C8_amended_distinct_seconds_no_overwrite_witness :
    archiveDestName "arch" "X_m.csv" "20240101120000" ≠
      archiveDestName "arch" "X_m.csv" "20240101120001" ∧
    archive_processed_files (fun _ => "20240101120001") "arch"
        (archive_processed_files (fun _ => "20240101120000") "arch" [] ["X_m.csv"])
        ["X_m.csv"] =
      [archiveDestName "arch" "X_m.csv" "20240101120000",
        archiveDestName "arch" "X_m.csv" "20240101120001"] :=
  C8_amended_distinct_seconds_no_overwrite "arch" "X_m.csv" "20240101120000" "20240101120001"
    (by decide)

/-- C9 (confirmed): when discovery yields an empty task set, the run
stops with the nothing-to-do outcome (sys.exit() with no argument, exit
status 0): main_processing and archive_processed_files are never
reached, so storage and the archive directory are untouched. -/
theorem C9_empty_task_set_nothing_to_do (wf : String → Bool) (clock : Nat → String)
    (archDir : String) (sensors : List Sensor) (dirFiles : List CsvFile) (mask : String)
    (db : List ParsedRow) (archSt : List String)
    (h : (check_for_new_files sensors dirFiles mask).1 = []) :
    pipelineMain wf clock archDir sensors dirFiles mask db archSt =
      RunOutcome.nothingToDo ∧
    exitCode (pipelineMain wf clock archDir sensors dirFiles mask db archSt) = 0 ∧
    finalDb db (pipelineMain wf clock archDir sensors dirFiles mask db archSt) = db ∧
    finalArchive archSt (pipelineMain wf clock archDir sensors dirFiles mask db archSt) =
      archSt := by
  have h1 : pipelineMain wf clock archDir sensors dirFiles mask db archSt =
      RunOutcome.nothingToDo := by
    simp [pipelineMain, h]
  exact ⟨h1, by rw [h1]; rfl, by rw [h1]; rfl, by rw [h1]; rfl⟩

/-- Witness for C9: an intake directory with no CSV file matching the
mask terminates the run with exit status 0 and no side effect. -/
theorem C9_empty_task_set_nothing_to_do_witness :
    pipelineMain (fun _ => false) (fun _ => "20240101120000") "arch" [⟨1, "Good"⟩]
      [⟨"notes.txt", []⟩] "_m" [⟨tsJan1, 20, 55, 10, 1, 8, 1⟩] ["arch/old.csv"] =
      RunOutcome.nothingToDo ∧
    exitCode (pipelineMain (fun _ => false) (fun _ => "20240101120000") "arch" [⟨1, "Good"⟩]
      [⟨"notes.txt", []⟩] "_m" [⟨tsJan1, 20, 55, 10, 1, 8, 1⟩] ["arch/old.csv"]) = 0 ∧
    finalDb [⟨tsJan1, 20, 55, 10, 1, 8, 1⟩]
      (pipelineMain (fun _ => false) (fun _ => "20240101120000") "arch" [⟨1, "Good"⟩]
        [⟨"notes.txt", []⟩] "_m" [⟨tsJan1, 20, 55, 10, 1, 8, 1⟩] ["arch/old.csv"]) =
      [⟨tsJan1, 20, 55, 10, 1, 8, 1⟩] ∧
    finalArchive ["arch/old.csv"]
      (pipelineMain (fun _ => false) (fun _ => "20240101120000") "arch" [⟨1, "Good"⟩]
        [⟨"notes.txt", []⟩] "_m" [⟨tsJan1, 20, 55, 10, 1, 8, 1⟩] ["arch/old.csv"]) =
      ["arch/old.csv"] :=
  C9_empty_task_set_nothing_to_do (fun _ => false) (fun _ => "20240101120000") "arch"
    [⟨1, "Good"⟩] [⟨"notes.txt", []⟩] "_m" [⟨tsJan1, 20, 55, 10, 1, 8, 1⟩] ["arch/old.csv"]
    rfl

end WD
